import Mathlib

/-!
Verification of the DLR cycling dashboard (Streamlit UI in src/ and the
offline ETL scripts in utils/) against its natural-language specification.

The Python sources are shallowly embedded:

* Python strings are Lean `String`s, but every Python string method used by
  the scripts (`in`, `lower`, `strip`, `split`) is re-implemented over the
  underlying character list, so that all definitions evaluate inside the
  kernel.  `pandas.Series.str.contains` is embedded as substring search
  (every pattern the scripts pass is a plain street-name fragment with no
  regex metacharacter, for which regex search and substring search agree),
  with `na=False` modelled by `Option String`.
* Geometric values (shapely/geopandas) are an abstract type `G` together
  with a record `GeomOps` of the primitives the scripts call (reprojection,
  buffering, union, intersection, explode, validity, length, linemerge).
  The claims under verification are about the control flow around these
  primitives, not about computational geometry itself.
* DataFrames are lists of row structures; `drop_duplicates` keeps the first
  occurrence of each repeated row, as pandas does.
* Python floats are IEEE-754 binary64; the one place the dashboard does
  float arithmetic on data (the improvement-rate KPI) is embedded by exact
  mantissa/exponent rounding (round to nearest, ties to even, 53-bit
  precision), which agrees with CPython on the values in range.
* Dates are modelled as day ordinals with weekday `ordinal % 7`; only the
  fact that every date lies on exactly one of the seven weekdays matters.
* The Streamlit loaders catch every exception of their try-blocks; the
  fallible steps (locating, reading, parsing a file) are modelled as
  `Except`-valued inputs and the catch-all arms are explicit, so that a
  loader is a total function: nothing propagates to the caller.
-/

/- ═══════════════════════  Python string primitives  ═══════════════════════ -/

/-- Python substring test: the statement `needle in hay`. -/
def pyIn (needle hay : String) : Bool :=
  hay.data.tails.any (fun t => needle.data.isPrefixOf t)

/-- Python `str.lower` (over the character list, so it reduces in the kernel). -/
def pyLower (s : String) : String := String.mk (s.data.map Char.toLower)

/-- Characters of a string with leading and trailing whitespace removed. -/
def ltrim (l : List Char) : List Char :=
  ((l.dropWhile Char.isWhitespace).reverse.dropWhile Char.isWhitespace).reverse

/-- Python `str.strip()` with no argument. -/
def pyStrip (s : String) : String := String.mk (ltrim s.data)

/-- Fuelled worker for `pySplit`: scan left to right, cutting at each
non-overlapping occurrence of the (non-empty) separator.  The fuel
`s.length + 1` always suffices, since every step consumes a character. -/
def lsplitF (sep : List Char) : Nat → List Char → List Char → List (List Char)
  | 0, cur, _ => [cur.reverse]
  | fuel+1, cur, s =>
    if sep.isPrefixOf s then cur.reverse :: lsplitF sep fuel [] (s.drop sep.length)
    else
      match s with
      | [] => [cur.reverse]
      | c :: rest => lsplitF sep fuel (c :: cur) rest

/-- Python `s.split(sep)` for a non-empty separator `sep`. -/
def pySplit (s sep : String) : List String :=
  (lsplitF sep.data (s.data.length + 1) [] s.data).map String.mk

/-- Python `s.split()` with no argument: split on whitespace runs, no empties. -/
def pySplitWs (s : String) : List String :=
  ((s.data.splitOnP Char.isWhitespace).map String.mk).filter (fun w => w != "")

/- ═══════════════════════  generic list helpers  ═══════════════════════ -/

/-- Worker for `dedupFirst`: drop any element already seen. -/
def dedupFirstAux {α : Type} [DecidableEq α] (seen : List α) : List α → List α
  | [] => []
  | a :: l => if a ∈ seen then dedupFirstAux seen l else a :: dedupFirstAux (a :: seen) l

/-- Pandas `drop_duplicates` / `Series.unique`: one copy of each value,
keeping the first occurrence. -/
def dedupFirst {α : Type} [DecidableEq α] (l : List α) : List α := dedupFirstAux [] l

/- ═══════════════════════  abstract geometry  ═══════════════════════ -/

/-- The shapely/geopandas primitives used by utils/street-extractor.py, over
an abstract type of geometries.  `toWebMercator` is `.to_crs(epsg=3857)`,
`toWGS84` is `.to_crs(epsg=4326)`; the rest are the equally named library
calls.  `explode` turns a (possibly multi-part) geometry into its parts. -/
structure GeomOps (G : Type) where
  toWebMercator : G → G
  toWGS84 : G → G
  buffer : G → ℚ → G
  unaryUnion : List G → G
  intersection : G → G → G
  explode : G → List G
  isEmpty : G → Bool
  isValid : G → Bool
  length : G → ℚ
  linemerge : G → G

/- ═══════════════════════  utils/street-extractor.py  ═══════════════════════ -/

namespace StreetExtractor

/-- One row of the pre-loaded OSM edge GeoDataFrame (`gdf_edges`): the
name and ref columns (NaN as `none`, list values already flattened by the
script) and the edge geometry. -/
structure OsmEdge (G : Type) where
  name : Option String
  ref : Option String
  geometry : G

/-- The pandas idiom `series.str.lower().str.contains(pat, na=False)` for a
regex-free pattern: missing values give `False`, otherwise a substring test
against the lowercased cell. -/
def colContains (cell : Option String) (pat : String) : Bool :=
  match cell with
  | none => false
  | some s => pyIn pat (pyLower s)

/-- Lines 118-158 of utils/street-extractor.py: `get_street_geometry`.
Select the edges whose name or ref column contains the street name; if the
selection is empty and the name mentions kill lane, fall back to the edges
whose ref contains r830; return `none` on an empty selection and otherwise
the linemerge of the unary union of the selected geometries. -/
def get_street_geometry {G : Type} (ops : GeomOps G) (street_name : String)
    (all_edges : List (OsmEdge G)) : Option G :=
  let matched := all_edges.filter (fun e =>
    colContains e.name street_name || colContains e.ref street_name)
  let matched2 :=
    if matched.isEmpty && pyIn "kill lane" street_name then
      all_edges.filter (fun e => colContains e.ref "r830")
    else matched
  if matched2.isEmpty then none
  else some (ops.linemerge (ops.unaryUnion (matched2.map (fun e => e.geometry))))

/-- The edge selection exactly as claim C5 words it, written independently of
`get_street_geometry` (cells spelled out with `Option.map`/`getD` instead of
the `colContains` match). -/
def selected_edges {G : Type} (street_name : String) (all_edges : List (OsmEdge G)) :
    List (OsmEdge G) :=
  let primary := all_edges.filter (fun e =>
    (e.name.map (fun s => pyIn street_name (pyLower s))).getD false
    || (e.ref.map (fun s => pyIn street_name (pyLower s))).getD false)
  if primary.isEmpty && pyIn "kill lane" street_name then
    all_edges.filter (fun e => (e.ref.map (fun s => pyIn "r830" (pyLower s))).getD false)
  else primary

/-- Lines 165-202 of utils/street-extractor.py: `trim_geometry_to_points`.
Reproject road and points to EPSG:3857, buffer each point by `buffer_m`
metres, intersect the road with the union of the buffers, explode, drop
empty parts, keep only valid parts of positive length, merge the survivors
and reproject to EPSG:4326.  The `try` around `linemerge` is modelled by a
total `linemerge`. -/
def trim_geometry_to_points {G : Type} (ops : GeomOps G) (road_geom : G)
    (points : List G) (buffer_m : ℚ) : Option G :=
  let road_proj := ops.toWebMercator road_geom
  let points_proj := points.map ops.toWebMercator
  let buffer_union := ops.unaryUnion (points_proj.map (fun p => ops.buffer p buffer_m))
  let clipped := (ops.explode (ops.intersection road_proj buffer_union)).filter
    (fun g => !ops.isEmpty g)
  if clipped.isEmpty then none
  else
    let valid_geoms := clipped.filter (fun g => ops.isValid g && decide (0 < ops.length g))
    if valid_geoms.isEmpty then none
    else some (ops.toWGS84 (ops.linemerge (ops.unaryUnion valid_geoms)))

/-- The pieces of the road-with-buffer intersection that survive the trim, as
claim C1 words it: not empty, valid, and of positive length, in one pass. -/
def surviving_pieces {G : Type} (ops : GeomOps G) (road_geom : G)
    (points : List G) (buffer_m : ℚ) : List G :=
  (ops.explode (ops.intersection (ops.toWebMercator road_geom)
      (ops.unaryUnion ((points.map ops.toWebMercator).map (fun p => ops.buffer p buffer_m))))).filter
    (fun g => !ops.isEmpty g && (ops.isValid g && decide (0 < ops.length g)))

/-- One row of the cyclist GPS GeoDataFrame (`gdf_points`): the already
lowercased and stripped road name (`road_name_clean`, NaN as `none`) and the
point geometry. -/
structure CyclistPoint (G : Type) where
  road_name_clean : Option String
  geometry : G

/-- The pandas test `gdf_points.road_name_clean.str.contains(part, na=False)`
(the column is already lowercased by the script). -/
def ptMatches {G : Type} (p : CyclistPoint G) (pat : String) : Bool :=
  match p.road_name_clean with
  | none => false
  | some s => pyIn pat s

/-- Lines 237-247 of utils/street-extractor.py: split a cleaned street name
on the separators, in order, stripping the pieces of each split. -/
def separators : List String := ["&", "/", "and", ",", ";"]

/-- The iterated separator split of the main loop. -/
def split_street_parts (street_name : String) : List String :=
  separators.foldl
    (fun parts sep =>
      parts.flatMap (fun part =>
        if pyIn sep part then (pySplit part sep).map pyStrip else [part]))
    [street_name]

/-- Lines 268-277 of utils/street-extractor.py: the word-level fallback that
takes the points matching the first word of length above 3 that matches at
least one point. -/
def word_fallback {G : Type} (gdf_points : List (CyclistPoint G)) :
    List String → List (CyclistPoint G)
  | [] => []
  | w :: ws =>
    if 3 < w.length then
      let word_points := gdf_points.filter (fun p => ptMatches p w)
      if word_points.isEmpty then word_fallback gdf_points ws else word_points
    else word_fallback gdf_points ws

/-- Lines 263-277 of utils/street-extractor.py: the cyclist points selected
for one street part (direct containment match, then the word fallback). -/
def subset_points {G : Type} (gdf_points : List (CyclistPoint G)) (part : String) :
    List (CyclistPoint G) :=
  let subset := gdf_points.filter (fun p => ptMatches p part)
  if subset.isEmpty then word_fallback gdf_points (pySplitWs part) else subset

/-- Lines 251-293 of utils/street-extractor.py: the trimmed geometries
collected for one street (`all_parts`): skip blank parts, parts with no OSM
match, parts with no cyclist points, and parts whose trim returns `None`. -/
def street_trimmed_parts {G : Type} (ops : GeomOps G) (gdf_edges : List (OsmEdge G))
    (gdf_points : List (CyclistPoint G)) (street_name_clean : String) : List G :=
  (split_street_parts street_name_clean).filterMap (fun part =>
    if pyStrip part = "" then none
    else
      match get_street_geometry ops part gdf_edges with
      | none => none
      | some osm_geom =>
        let subset := subset_points gdf_points part
        if subset.isEmpty then none
        else trim_geometry_to_points ops osm_geom (subset.map (fun p => p.geometry)) 25)

/-- One record of `final_segments` (and one feature of the output GeoJSON). -/
structure TrimmedSegment (G : Type) where
  street_name : String
  original_clean_name : String
  geometry : G

/-- Lines 211-309 of utils/street-extractor.py: the `final_segments` list,
one record per street with at least one trimmed part, holding the original
name, the cleaned name and the unary union of the trimmed parts.  The `try`
around `unary_union` is modelled by a total `unaryUnion`. -/
def final_segments {G : Type} (ops : GeomOps G) (gdf_edges : List (OsmEdge G))
    (gdf_points : List (CyclistPoint G)) (street_names : List String) :
    List (TrimmedSegment G) :=
  street_names.filterMap (fun original_name =>
    let street_name := pyStrip (pyLower original_name)
    let all_parts := street_trimmed_parts ops gdf_edges gdf_points street_name
    if all_parts.isEmpty then none
    else some ⟨original_name, street_name, ops.unaryUnion all_parts⟩)

/-- The GeoDataFrame written to trimmed_active_segments.geojson: its column
names and its feature rows. -/
structure OutputGDF (G : Type) where
  columns : List String
  rows : List (TrimmedSegment G)

/-- Lines 314-336 of utils/street-extractor.py: the exported GeoDataFrame.
With no segment, an empty frame with the three named columns; otherwise the
frame built from the `final_segments` records (whose keys give the same
three columns). -/
def extractor_output {G : Type} (ops : GeomOps G) (gdf_edges : List (OsmEdge G))
    (gdf_points : List (CyclistPoint G)) (street_names : List String) : OutputGDF G :=
  if (final_segments ops gdf_edges gdf_points street_names).isEmpty then
    { columns := ["street_name", "original_clean_name", "geometry"], rows := [] }
  else
    { columns := ["street_name", "original_clean_name", "geometry"],
      rows := final_segments ops gdf_edges gdf_points street_names }

end StreetExtractor

/- ═══════════════════════  shared daily-data model  ═══════════════════════ -/

/-- One row of daily_street_data.csv, the columns both trend scripts touch.
word order follows the aggregation dictionaries of the scripts.  The date is
a day ordinal; its weekday is the ordinal modulo 7 (see `dayName`). -/
structure DailyRow where
  road_name : Option String
  date : Nat
  daily_cyclists : Int
  daily_popularity : ℚ
  daily_rides : Int
  daily_points : Int
  daily_speed : ℚ
deriving DecidableEq

/-- The `days_order` list of utils/trend_extractor.py, which is also the
range of `pandas.Series.dt.day_name()`. -/
def days_order : List String :=
  ["Monday", "Tuesday", "Wednesday", "Thursday", "Friday", "Saturday", "Sunday"]

/-- The weekday name of a day ordinal (`df.date.dt.day_name()`); only the
fact that each date has exactly one of the seven names is used. -/
def dayName (d : Nat) : String := days_order.getD (d % 7) ""

/-- Sum of the daily_cyclists column over a list of rows
(`frame.daily_cyclists.sum()`). -/
def cyclistsSum (rows : List DailyRow) : Int :=
  (rows.map (fun r => r.daily_cyclists)).sum

/- ═══════════════════════  utils/trend_extractor.py  ═══════════════════════ -/

namespace TrendExtractor

/-- Lines 54-86 of utils/trend_extractor.py: `get_street_variants`.  A
non-string cell (modelled `none`) gives no variant; a name with a slash is
split on slashes, else a name with an ampersand is split on ampersands, else
the stripped name itself is the one variant; empty strings are filtered out. -/
def get_street_variants (street_name : Option String) : List String :=
  match street_name with
  | none => []
  | some s =>
    let variants :=
      if pyIn "/" s then (pySplit s "/").map pyStrip
      else if pyIn "&" s then (pySplit s "&").map pyStrip
      else [pyStrip s]
    variants.filter (fun v => v != "")

/-- Line 107 of utils/trend_extractor.py: the rows whose road_name contains
the variant, case-insensitively (`str.contains(variant, case=False,
na=False, regex=False)`). -/
def rowMatchesVariant (r : DailyRow) (variant : String) : Bool :=
  match r.road_name with
  | none => false
  | some s => pyIn (pyLower variant) (pyLower s)

/-- The per-variant selection `variant_data` of lines 103-113. -/
def variantRows (df : List DailyRow) (variant : String) : List DailyRow :=
  df.filter (fun r => rowMatchesVariant r variant)

/-- Lines 99-117 of utils/trend_extractor.py: `combined_data`, the
concatenation of the per-variant selections with duplicate rows dropped. -/
def combined_data (df : List DailyRow) (street : Option String) : List DailyRow :=
  dedupFirst (((get_street_variants street).map (fun v => variantRows df v)).flatten)

/-- Lines 125-137 of utils/trend_extractor.py: the `day_totals` dict, one
entry per weekday in `days_order`, holding the cyclist sum of the combined
rows that fall on that weekday (0 with no combined rows at all). -/
def day_totals (df : List DailyRow) (street : Option String) : List (String × Int) :=
  days_order.map (fun day =>
    (day,
      if (combined_data df street).isEmpty then 0
      else cyclistsSum ((combined_data df street).filter (fun r => dayName r.date == day))))

/-- The per-street record written to trend.json (lines 139-143). -/
structure TrendEntry where
  day_totals : List (String × Int)
  total_cyclists : Int
  variants_found : List String

/-- Lines 92-143 of utils/trend_extractor.py: the trend.json entry of one
street of the route-popularity input. -/
def trendEntry (df : List DailyRow) (street : Option String) : TrendEntry :=
  { day_totals := day_totals df street
    total_cyclists := ((day_totals df street).map Prod.snd).sum
    variants_found :=
      (get_street_variants street).filter (fun v => !(variantRows df v).isEmpty) }

/-- The row set exactly as claim C2 words it: the deduplicated rows of the
daily data whose road_name contains at least one of the street variants. -/
def claimMatchedRows (df : List DailyRow) (street : Option String) : List DailyRow :=
  dedupFirst (df.filter (fun r =>
    (get_street_variants street).any (fun v => rowMatchesVariant r v)))

end TrendExtractor

/- ═══════════════════════  utils/trend-metadata.py  ═══════════════════════ -/

namespace TrendMetadata

/-- Lines 111-117 and 148 of utils/trend-metadata.py: group the matched rows
by date, sum daily_cyclists per date (`groupby('date').agg`), and total the
per-date sums.  The sort order of the group keys is irrelevant to the total,
so the keys are taken in first-appearance order. -/
def total_cyclists_stat (rows : List DailyRow) : Int :=
  ((dedupFirst (rows.map (fun r => r.date))).map
    (fun d => cyclistsSum (rows.filter (fun r => r.date == d)))).sum

/-- Lines 122-126 of utils/trend-metadata.py: the `weekly_pattern` dict, one
entry per weekday (lowercased key), holding the cyclist sum of the ungrouped
matched rows that fall on that weekday. -/
def weekly_pattern (rows : List DailyRow) : List (String × Int) :=
  days_order.map (fun day =>
    (pyLower day, cyclistsSum (rows.filter (fun r => dayName r.date == day))))

end TrendMetadata

/- ═══════════════════════  IEEE-754 binary64 model  ═══════════════════════ -/

namespace Float64

/-- Number of binary digits of a natural number, with fuel (so that the
definition reduces in the kernel); `4200` covers every number below
`2 ^ 4200`, far beyond the binary64 range. -/
def nbits : Nat → Nat → Nat
  | 0, _ => 0
  | f+1, n => if n = 0 then 0 else nbits f (n / 2) + 1

/-- Nearest integer to `n / d` (`d > 0`), ties to even. -/
def rnEvenNat (n d : Nat) : Nat :=
  let q := n / d
  let r := n % d
  if 2 * r < d then q else if d < 2 * r then q + 1 else if q % 2 = 0 then q else q + 1

/-- Decide `a * 2^ea ≤ b * 2^eb` for naturals with integer exponents. -/
def qle2 (a : Nat) (ea : Int) (b : Nat) (eb : Int) : Bool :=
  if ea ≤ eb then a ≤ b * 2 ^ (eb - ea).toNat else a * 2 ^ (ea - eb).toNat ≤ b

/-- Round the positive rational `(n / d) * 2^E` (`n, d > 0`) to the nearest
IEEE-754 binary64 value (round to nearest, ties to even, 53-bit precision,
gradual underflow at `2^-1074`), as a mantissa/exponent pair of value
`m * 2^s`.  Overflow to infinity is outside the range this file uses. -/
def roundB64 (n d : Nat) (E : Int) : Nat × Int :=
  let e0 : Int := (nbits 4200 n : Int) - (nbits 4200 d : Int) + E
  let e : Int := if qle2 d (e0 - E) n 0 then e0 else e0 - 1
  let s : Int := max (e - 52) (-1074)
  let k : Int := E - s
  let nd : Nat × Nat := if 0 ≤ k then (n * 2 ^ k.toNat, d) else (n, d * 2 ^ (-k).toNat)
  (rnEvenNat nd.1 nd.2, s)

/-- Python `i / t` on nonnegative ints (true division, correctly rounded to
binary64; CPython rounds the exact ratio). -/
def pyDivFloat (i t : Nat) : Nat × Int :=
  if i = 0 then (0, 0) else roundB64 i t 0

/-- Multiplication of a nonnegative binary64 value by the exactly
representable float `100.0`, rounded back to binary64. -/
def mulFloat100 (x : Nat × Int) : Nat × Int :=
  if x.1 = 0 then (0, 0) else roundB64 (x.1 * 100) 1 x.2

/-- Python `int()` of a nonnegative binary64 value (truncation). -/
def truncFloat (x : Nat × Int) : Nat :=
  if 0 ≤ x.2 then x.1 * 2 ^ x.2.toNat else x.1 / 2 ^ (-x.2).toNat

end Float64

/- ═══════════════════════  src/tab2_abnormal_events.py  ═══════════════════════ -/

namespace Tab2

/-- One row of the loaded abnormal-events CSV: the street name (never NaN
after the loader drops empty names) and the trend cell. -/
structure AbnormalRow where
  street_name : String
  trend : Option String
deriving DecidableEq

/-- The four KPI numbers rendered by `create_abnormal_metrics`, under the
variable names of the source. -/
structure AbnormalMetrics where
  total_abnormal : Nat
  high_risk_routes : Nat
  improved_routes : Nat
  improvement_rate : Nat
deriving DecidableEq

/-- Lines 40-83 of src/tab2_abnormal_events.py: `create_abnormal_metrics`.
Distinct street names, rows with trend Increase, rows with trend Decrease,
and `int(improved / total * 100)` in Python float arithmetic when the total
is positive. -/
def create_abnormal_metrics (abnormal_df : List AbnormalRow) : AbnormalMetrics :=
  let total_abnormal :=
    if abnormal_df.isEmpty then 0
    else (dedupFirst (abnormal_df.map (fun r => r.street_name))).length
  let high_risk_routes :=
    if abnormal_df.isEmpty then 0
    else (abnormal_df.filter (fun r => r.trend == some "Increase")).length
  let improved_routes :=
    if abnormal_df.isEmpty then 0
    else (abnormal_df.filter (fun r => r.trend == some "Decrease")).length
  let improvement_rate :=
    if 0 < total_abnormal then
      Float64.truncFloat (Float64.mulFloat100 (Float64.pyDivFloat improved_routes total_abnormal))
    else 0
  ⟨total_abnormal, high_risk_routes, improved_routes, improvement_rate⟩

/-- A GeoJSON geometry dict as the map code reads it: its type tag and its
`coordinates` entry (a list of rings of lon/lat pairs; `none` when the key
is missing, for which the code substitutes `[[]]`). -/
structure GeoJsonGeometry where
  type : String
  coordinates : Option (List (List (ℚ × ℚ)))

/-- All ring vertices of all Polygon geometries of the list, in iteration
order. -/
def polygon_vertices (geometries : List GeoJsonGeometry) : List (ℚ × ℚ) :=
  geometries.flatMap (fun geom =>
    if geom.type == "Polygon" then (geom.coordinates.getD [[]]).flatMap (fun ring => ring)
    else [])

/-- The fallback bounds of line 315 of src/tab2_abnormal_events.py. -/
def default_dublin_bounds : List ℚ := [-(63/10), 532/10, -(61/10), 534/10]

/-- Lines 299-317 of src/tab2_abnormal_events.py:
`calculate_bounds_from_geometries`.  The source initialises the four
accumulators at plus and minus infinity and tests `min_lon == inf` at the
end; with rationals this is modelled by folding from the first vertex and
matching on an empty vertex list, which distinguishes exactly the same
cases. -/
def calculate_bounds_from_geometries (geometries : List GeoJsonGeometry) : List ℚ :=
  match polygon_vertices geometries with
  | [] => default_dublin_bounds
  | v :: vs =>
    [vs.foldl (fun m p => min m p.1) v.1,
     vs.foldl (fun m p => min m p.2) v.2,
     vs.foldl (fun m p => max m p.1) v.1,
     vs.foldl (fun m p => max m p.2) v.2]

/-- The concrete DataFrame of the C7 counterexample: 50 rows with pairwise
distinct street names, 29 of them with trend Decrease. -/
def rateCexDf : List AbnormalRow :=
  (List.range 50).map (fun k =>
    { street_name := String.mk (List.replicate k 'a')
      trend := if k < 29 then some "Decrease" else none })

/-- The concrete geometry list of the C10 counterexample: one Polygon whose
vertex extremes coincide with the default Dublin bounds. -/
def boundsCexGeometries : List GeoJsonGeometry :=
  [{ type := "Polygon", coordinates := some [[(-(63/10), 532/10), (-(61/10), 534/10)]] }]

end Tab2

/- ═══════════════════════  src/tab3_route_popularity.py  ═══════════════════════ -/

namespace Tab3

/-- Lines 290-301 of src/tab3_route_popularity.py: `get_color`, the route
colour derived from the Popularity Change cell (NaN as `none`). -/
def get_color (change_text : Option String) : String :=
  match change_text with
  | none => "Gray"
  | some t =>
    let change_lower := pyLower t
    if pyIn "increasing" change_lower || pyIn "improved" change_lower then "Green"
    else if pyIn "decreasing" change_lower || pyIn "dropped" change_lower
        || pyIn "decline" change_lower then "Red"
    else "Gray"

end Tab3

/- ═══════════════════════  dashboard data loaders  ═══════════════════════ -/

namespace Dashboard

/-- A message the loaders emit through Streamlit. -/
inductive StMsg
  | error (text : String)
  | warning (text : String)
  | info (text : String)
deriving DecidableEq

/-- What a loader returns: its value and the Streamlit messages it emitted.
Every loader is a total function of this type, which is exactly the
statement that no exception propagates to the caller. -/
structure LoadResult (α : Type) where
  value : α
  messages : List StMsg

/-- A file as a loader sees it: whether the existence check passes, and the
(fallible) result of reading and parsing it.  Locating the file is itself
fallible, so loaders take an `Except String (FallibleFile α)`. -/
structure FallibleFile (α : Type) where
  found : Bool
  read : Except String α

/-- Lines 188-224 of src/tab2_abnormal_events.py: `load_abnormal_events_data`.
Inside one try-block: locate the CSV (error plus info and an empty frame
when it is missing), read it, and clean it (strip columns, drop the index
column, drop blank street names, fix encodings); any exception is caught and
answered with an error message and an empty frame. -/
def load_abnormal_events_data {Raw DF : Type} (emptyDF : DF)
    (locate : Except String (FallibleFile Raw)) (clean : Raw → Except String DF) :
    LoadResult DF :=
  match locate with
  | .error e => ⟨emptyDF, [.error ("Error loading abnormal events CSV data: " ++ e)]⟩
  | .ok file =>
    if file.found then
      match file.read with
      | .error e => ⟨emptyDF, [.error ("Error loading abnormal events CSV data: " ++ e)]⟩
      | .ok raw =>
        match clean raw with
        | .error e => ⟨emptyDF, [.error ("Error loading abnormal events CSV data: " ++ e)]⟩
        | .ok df => ⟨df, []⟩
    else ⟨emptyDF, [.error "CSV file not found at the expected path", .info "Looked in directory"]⟩

/-- Lines 226-263 of src/tab2_abnormal_events.py: `load_abnormal_events_segments`.
Same shape for the GeoJSON file, with sentinel `None` and a traceback
message on exceptions; `extract` models pulling the feature rows out of the
parsed JSON. -/
def load_abnormal_events_segments {Raw DF : Type}
    (locate : Except String (FallibleFile Raw)) (extract : Raw → Except String DF) :
    LoadResult (Option DF) :=
  match locate with
  | .error e => ⟨none, [.error ("Error loading GeoJSON data: " ++ e), .error "Traceback"]⟩
  | .ok file =>
    if file.found then
      match file.read with
      | .error e => ⟨none, [.error ("Error loading GeoJSON data: " ++ e), .error "Traceback"]⟩
      | .ok raw =>
        match extract raw with
        | .error e => ⟨none, [.error ("Error loading GeoJSON data: " ++ e), .error "Traceback"]⟩
        | .ok df => ⟨some df, []⟩
    else ⟨none, [.error "GeoJSON file not found at the expected path", .info "Looked in directory"]⟩

/-- Lines 257-333 of src/tab3_route_popularity.py: `load_route_popularity_data`.
Locate and read the CSV, then process it (rename columns, strip names,
derive Colour and trips_count, fill placeholder fields); sentinel empty
frame, with error and traceback messages on exceptions. -/
def load_route_popularity_data {Raw DF : Type} (emptyDF : DF)
    (locate : Except String (FallibleFile Raw)) (process : Raw → Except String DF) :
    LoadResult DF :=
  match locate with
  | .error e => ⟨emptyDF, [.error ("Error loading route popularity data: " ++ e), .error "Traceback"]⟩
  | .ok file =>
    if file.found then
      match file.read with
      | .error e => ⟨emptyDF, [.error ("Error loading route popularity data: " ++ e), .error "Traceback"]⟩
      | .ok raw =>
        match process raw with
        | .error e => ⟨emptyDF, [.error ("Error loading route popularity data: " ++ e), .error "Traceback"]⟩
        | .ok df => ⟨df, []⟩
    else ⟨emptyDF, [.error "Route popularity CSV not found at the expected path"]⟩

/-- The common shape of the three tab-3 JSON loaders (lines 107-156 of
src/tab3_route_popularity.py): locate the file, warn and return the sentinel
when it is missing, read and parse it inside the try, and answer any
exception with one warning and the sentinel. -/
def load_json_file {α : Type} (sentinel : α) (missingMsg errPrefix : String)
    (locate : Except String (FallibleFile α)) : LoadResult α :=
  match locate with
  | .error e => ⟨sentinel, [.warning (errPrefix ++ e)]⟩
  | .ok file =>
    if file.found then
      match file.read with
      | .error e => ⟨sentinel, [.warning (errPrefix ++ e)]⟩
      | .ok v => ⟨v, []⟩
    else ⟨sentinel, [.warning missingMsg]⟩

/-- Lines 107-122 of src/tab3_route_popularity.py: `load_time_of_day_data`
(time-of-the-day.json, sentinel the empty list). -/
def load_time_of_day_data {α : Type} (file : Except String (FallibleFile (List α))) :
    LoadResult (List α) :=
  load_json_file [] "Time of day data not found" "Could not load time of day data: " file

/-- Lines 124-139 of src/tab3_route_popularity.py: `load_day_of_week_data`
(day-of-the-week.json, sentinel the empty dict, modelled as an empty
association list). -/
def load_day_of_week_data {α : Type}
    (file : Except String (FallibleFile (List (String × α)))) :
    LoadResult (List (String × α)) :=
  load_json_file [] "Day of week data not found" "Could not load day of week data: " file

/-- Lines 141-156 of src/tab3_route_popularity.py: `load_street_trends_metadata`
(weekly_street_trends.json, sentinel the empty dict). -/
def load_street_trends_metadata {α : Type}
    (file : Except String (FallibleFile (List (String × α)))) :
    LoadResult (List (String × α)) :=
  load_json_file [] "Street trends metadata not found" "Could not load street trends metadata: " file

end Dashboard

/- ═══════════════════════  helper lemmas  ═══════════════════════ -/

theorem mem_dedupFirstAux {α : Type} [DecidableEq α] (l : List α) :
    ∀ (seen : List α) (a : α), a ∈ dedupFirstAux seen l ↔ a ∈ l ∧ a ∉ seen := by
  induction l with
  | nil => intro seen a; simp [dedupFirstAux]
  | cons b t ih =>
    intro seen a
    by_cases hb : b ∈ seen <;> by_cases hab : a = b
    · subst hab; simp [dedupFirstAux, if_pos hb, ih, hb]
    · simp [dedupFirstAux, if_pos hb, ih, hab]
    · subst hab; simp [dedupFirstAux, if_neg hb, ih, hb]
    · simp [dedupFirstAux, if_neg hb, ih, hab]

theorem mem_dedupFirst {α : Type} [DecidableEq α] (l : List α) (a : α) :
    a ∈ dedupFirst l ↔ a ∈ l := by
  simp [dedupFirst, mem_dedupFirstAux]

theorem nodup_dedupFirstAux {α : Type} [DecidableEq α] (l : List α) :
    ∀ seen : List α, (dedupFirstAux seen l).Nodup := by
  induction l with
  | nil => intro seen; simp [dedupFirstAux]
  | cons b t ih =>
    intro seen
    by_cases hb : b ∈ seen
    · simpa [dedupFirstAux, if_pos hb] using ih seen
    · simp only [dedupFirstAux, if_neg hb]
      refine List.nodup_cons.mpr ⟨?_, ih (b :: seen)⟩
      intro hmem
      exact ((mem_dedupFirstAux t (b :: seen) b).mp hmem).2 (List.mem_cons_self b seen)

theorem nodup_dedupFirst {α : Type} [DecidableEq α] (l : List α) :
    (dedupFirst l).Nodup := nodup_dedupFirstAux l []

theorem dedupFirst_perm {α : Type} [DecidableEq α] {l₁ l₂ : List α}
    (h : ∀ a, a ∈ l₁ ↔ a ∈ l₂) : (dedupFirst l₁).Perm (dedupFirst l₂) :=
  (List.perm_ext_iff_of_nodup (nodup_dedupFirst l₁) (nodup_dedupFirst l₂)).mpr
    (fun a => by simp [mem_dedupFirst, h a])

theorem dedupFirst_eq_nil_iff {α : Type} [DecidableEq α] (l : List α) :
    dedupFirst l = [] ↔ l = [] := by
  constructor
  · intro h
    cases l with
    | nil => rfl
    | cons a t =>
      exfalso
      have := (mem_dedupFirst (a :: t) a).mpr (List.mem_cons_self a t)
      simp [h] at this
  · rintro rfl; rfl

theorem length_dedupFirst_eq_card {α : Type} [DecidableEq α] (l : List α) :
    (dedupFirst l).length = l.toFinset.card := by
  have h1 : (dedupFirst l).toFinset = l.toFinset := by
    ext a; simp [List.mem_toFinset, mem_dedupFirst]
  calc (dedupFirst l).length = (dedupFirst l).toFinset.card :=
        (List.toFinset_card_of_nodup (nodup_dedupFirst l)).symm
    _ = l.toFinset.card := by rw [h1]

theorem filterMap_guard_eq_map_filter {α β : Type} (p : α → Bool) (f : α → β) (l : List α) :
    (l.filterMap (fun a => if p a then some (f a) else none)) = (l.filter p).map f := by
  induction l with
  | nil => rfl
  | cons a t ih =>
    by_cases h : p a <;> simp [List.filterMap_cons, List.filter_cons, h, ih]

theorem sum_map_ite_of_not_mem {κ : Type} [DecidableEq κ] {c : κ} (x : Int) :
    ∀ keys : List κ, c ∉ keys → (keys.map (fun key => if c = key then x else 0)).sum = 0 := by
  intro keys
  induction keys with
  | nil => intro _; rfl
  | cons k ks ih =>
    intro h
    have hck : c ≠ k := fun hc => h (hc ▸ List.mem_cons_self k ks)
    have hcs : c ∉ ks := fun hc => h (List.mem_cons_of_mem _ hc)
    simp [hck, ih hcs]

theorem sum_map_ite_of_mem {κ : Type} [DecidableEq κ] {c : κ} (x : Int) :
    ∀ keys : List κ, c ∈ keys → keys.Nodup →
      (keys.map (fun key => if c = key then x else 0)).sum = x := by
  intro keys
  induction keys with
  | nil => intro h; exact absurd h (List.not_mem_nil c)
  | cons k ks ih =>
    intro hmem hnd
    rcases List.mem_cons.mp hmem with rfl | hks
    · have hrest : c ∉ ks := (List.nodup_cons.mp hnd).1
      simp [sum_map_ite_of_not_mem x ks hrest]
    · have hck : c ≠ k := by
        rintro rfl
        exact (List.nodup_cons.mp hnd).1 hks
      simp [hck, ih hks (List.nodup_cons.mp hnd).2]

theorem sum_map_add_distrib {κ : Type} (u v : κ → Int) :
    ∀ keys : List κ, (keys.map (fun key => u key + v key)).sum
      = (keys.map u).sum + (keys.map v).sum := by
  intro keys
  induction keys with
  | nil => rfl
  | cons k ks ih => simp [ih]; ring

theorem sum_fiber_partition {α κ : Type} [DecidableEq κ] (keys : List κ) (k : α → κ)
    (f : α → Int) (l : List α) (hnd : keys.Nodup) (hcov : ∀ a ∈ l, k a ∈ keys) :
    (keys.map (fun key => ((l.filter (fun a => k a == key)).map f).sum)).sum
      = (l.map f).sum := by
  induction l with
  | nil => simp
  | cons a t ih =>
    have hcov' : ∀ b ∈ t, k b ∈ keys := fun b hb => hcov b (List.mem_cons_of_mem _ hb)
    have hka : k a ∈ keys := hcov a (List.mem_cons_self a t)
    have hsplit : ∀ key : κ, ((List.filter (fun b => k b == key) (a :: t)).map f).sum
        = (if k a = key then f a else 0) + ((t.filter (fun b => k b == key)).map f).sum := by
      intro key
      by_cases h : k a = key
      · simp [List.filter_cons, h]
      · simp [List.filter_cons, h]
    calc (keys.map (fun key => ((List.filter (fun b => k b == key) (a :: t)).map f).sum)).sum
        = (keys.map (fun key => (if k a = key then f a else 0)
            + ((t.filter (fun b => k b == key)).map f).sum)).sum := by
          exact congrArg List.sum (List.map_congr_left (fun key _ => hsplit key))
      _ = (keys.map (fun key => if k a = key then f a else 0)).sum
            + (keys.map (fun key => ((t.filter (fun b => k b == key)).map f).sum)).sum :=
          sum_map_add_distrib _ _ keys
      _ = f a + ((t.map f).sum) := by
          rw [sum_map_ite_of_mem (f a) keys hka hnd, ih hcov']
      _ = ((a :: t).map f).sum := by simp

theorem foldl_min_le_init {α : Type} [LinearOrder α] (l : List α) :
    ∀ a : α, l.foldl min a ≤ a := by
  induction l with
  | nil => intro a; exact le_refl a
  | cons c t ih =>
    intro a
    calc (c :: t).foldl min a = t.foldl min (min a c) := rfl
      _ ≤ min a c := ih (min a c)
      _ ≤ a := min_le_left a c

theorem foldl_min_le_mem {α : Type} [LinearOrder α] (l : List α) :
    ∀ (a b : α), b ∈ l → l.foldl min a ≤ b := by
  induction l with
  | nil => intro a b h; exact absurd h (List.not_mem_nil b)
  | cons c t ih =>
    intro a b hb
    rcases List.mem_cons.mp hb with rfl | hbt
    · calc (b :: t).foldl min a = t.foldl min (min a b) := rfl
        _ ≤ min a b := foldl_min_le_init t (min a b)
        _ ≤ b := min_le_right a b
    · exact ih (min a c) b hbt

theorem foldl_min_mem {α : Type} [LinearOrder α] (l : List α) :
    ∀ a : α, l.foldl min a = a ∨ l.foldl min a ∈ l := by
  induction l with
  | nil => intro a; exact Or.inl rfl
  | cons c t ih =>
    intro a
    rcases ih (min a c) with h | h
    · rcases min_choice a c with hm | hm
      · exact Or.inl (by rw [List.foldl_cons, h, hm])
      · refine Or.inr ?_
        rw [List.foldl_cons, h, hm]
        exact List.mem_cons_self c t
    · exact Or.inr (List.mem_cons_of_mem c (by rw [List.foldl_cons]; exact h))

theorem foldl_max_ge_init {α : Type} [LinearOrder α] (l : List α) :
    ∀ a : α, a ≤ l.foldl max a := by
  induction l with
  | nil => intro a; exact le_refl a
  | cons c t ih =>
    intro a
    calc a ≤ max a c := le_max_left a c
      _ ≤ t.foldl max (max a c) := ih (max a c)
      _ = (c :: t).foldl max a := rfl

theorem foldl_max_ge_mem {α : Type} [LinearOrder α] (l : List α) :
    ∀ (a b : α), b ∈ l → b ≤ l.foldl max a := by
  induction l with
  | nil => intro a b h; exact absurd h (List.not_mem_nil b)
  | cons c t ih =>
    intro a b hb
    rcases List.mem_cons.mp hb with rfl | hbt
    · calc b ≤ max a b := le_max_right a b
        _ ≤ t.foldl max (max a b) := foldl_max_ge_init t (max a b)
        _ = (b :: t).foldl max a := rfl
    · exact ih (max a c) b hbt

theorem foldl_max_mem {α : Type} [LinearOrder α] (l : List α) :
    ∀ a : α, l.foldl max a = a ∨ l.foldl max a ∈ l := by
  induction l with
  | nil => intro a; exact Or.inl rfl
  | cons c t ih =>
    intro a
    rcases ih (max a c) with h | h
    · rcases max_choice a c with hm | hm
      · exact Or.inl (by rw [List.foldl_cons, h, hm])
      · refine Or.inr ?_
        rw [List.foldl_cons, h, hm]
        exact List.mem_cons_self c t
    · exact Or.inr (List.mem_cons_of_mem c (by rw [List.foldl_cons]; exact h))

theorem colContains_eq_optionMap (cell : Option String) (pat : String) :
    StreetExtractor.colContains cell pat
      = (cell.map (fun s => pyIn pat (pyLower s))).getD false := by
  cases cell <;> rfl

theorem dayName_mem_days_order (d : Nat) : dayName d ∈ days_order := by
  rcases (by omega :
      d % 7 = 0 ∨ d % 7 = 1 ∨ d % 7 = 2 ∨ d % 7 = 3 ∨ d % 7 = 4 ∨ d % 7 = 5 ∨ d % 7 = 6)
    with h | h | h | h | h | h | h <;>
  simp [dayName, days_order, h]

/- ═══════════════════════  claim theorems  ═══════════════════════ -/

/-- Claim C1: for every road geometry and every set of cyclist GPS points,
`trim_geometry_to_points` (with its 25-metre buffer) reprojects both inputs
to EPSG:3857, intersects the road with the union of the point buffers, and
returns `none` exactly when no non-empty, valid, positive-length piece of the
intersection survives; otherwise it returns the linemerge of the unary union
of the surviving pieces, reprojected to EPSG:4326. -/
theorem trim_geometry_to_points_spec {G : Type} (ops : GeomOps G) (road_geom : G)
    (points : List G) :
    StreetExtractor.trim_geometry_to_points ops road_geom points 25
      = if (StreetExtractor.surviving_pieces ops road_geom points 25).isEmpty then none
        else some (ops.toWGS84 (ops.linemerge (ops.unaryUnion
          (StreetExtractor.surviving_pieces ops road_geom points 25)))) := by
  simp only [StreetExtractor.trim_geometry_to_points, StreetExtractor.surviving_pieces]
  set E := ops.explode (ops.intersection (ops.toWebMercator road_geom)
    (ops.unaryUnion ((points.map ops.toWebMercator).map (fun p => ops.buffer p 25)))) with hE
  have hff : (E.filter (fun g => !ops.isEmpty g)).filter
        (fun g => ops.isValid g && decide (0 < ops.length g))
      = E.filter (fun g => !ops.isEmpty g && (ops.isValid g && decide (0 < ops.length g))) := by
    rw [List.filter_filter]
    exact List.filter_congr (fun g _ => Bool.and_comm _ _)
  by_cases h1 : (E.filter (fun g => !ops.isEmpty g)).isEmpty
  · have h0 : E.filter (fun g => !ops.isEmpty g) = [] := by
      simpa using h1
    have h2 : E.filter (fun g => !ops.isEmpty g && (ops.isValid g && decide (0 < ops.length g))) = [] := by
      rw [← hff, h0]; rfl
    simp [h1, h2]
  · rw [if_neg h1, ← hff]

/-- Claim C5: for every cleaned street-name part, `get_street_geometry`
selects exactly the edges whose lowercased name or ref contains the part as
a substring, falls back to the edges whose ref contains r830 when that
selection is empty and the part mentions kill lane, returns `none` if and
only if the final selection is empty, and otherwise returns the linemerge of
the unary union of the selected edge geometries. -/
theorem get_street_geometry_spec {G : Type} (ops : GeomOps G) (street_name : String)
    (all_edges : List (StreetExtractor.OsmEdge G)) :
    (StreetExtractor.get_street_geometry ops street_name all_edges = none
        ↔ StreetExtractor.selected_edges street_name all_edges = [])
    ∧ StreetExtractor.get_street_geometry ops street_name all_edges
      = if (StreetExtractor.selected_edges street_name all_edges).isEmpty then none
        else some (ops.linemerge (ops.unaryUnion
          ((StreetExtractor.selected_edges street_name all_edges).map (fun e => e.geometry)))) := by
  have hsel : StreetExtractor.selected_edges street_name all_edges
      = (let matched := all_edges.filter (fun e =>
          StreetExtractor.colContains e.name street_name
          || StreetExtractor.colContains e.ref street_name)
        if matched.isEmpty && pyIn "kill lane" street_name then
          all_edges.filter (fun e => StreetExtractor.colContains e.ref "r830")
        else matched) := by
    simp only [StreetExtractor.selected_edges, colContains_eq_optionMap]
  have hmain : StreetExtractor.get_street_geometry ops street_name all_edges
      = if (StreetExtractor.selected_edges street_name all_edges).isEmpty then none
        else some (ops.linemerge (ops.unaryUnion
          ((StreetExtractor.selected_edges street_name all_edges).map (fun e => e.geometry)))) := by
    rw [hsel]
    simp only [StreetExtractor.get_street_geometry]
  refine ⟨?_, hmain⟩
  rw [hmain]
  by_cases h : (StreetExtractor.selected_edges street_name all_edges).isEmpty
  · simp only [if_pos h]
    simpa using List.isEmpty_iff.mp h
  · simp only [if_neg h]
    constructor
    · intro hc; exact absurd hc (by simp)
    · intro hc
      exact absurd (List.isEmpty_iff.mpr hc) h



/-- Claim C2: for every street of the route-popularity input, the trend.json
entry maps each of the seven weekday names to the cyclist sum of the
deduplicated daily rows that match one of the street variants and fall on
that weekday; every day total is 0 when no row matches any variant; and the
entry total equals the sum of the seven day totals. -/
theorem trend_entry_day_totals_spec (df : List DailyRow) (street : Option String) :
    (TrendExtractor.trendEntry df street).day_totals
        = days_order.map (fun day =>
            (day, cyclistsSum ((TrendExtractor.claimMatchedRows df street).filter
              (fun r => dayName r.date == day))))
    ∧ (TrendExtractor.trendEntry df street).total_cyclists
        = (((TrendExtractor.trendEntry df street).day_totals).map Prod.snd).sum
    ∧ (TrendExtractor.claimMatchedRows df street = [] →
        (TrendExtractor.trendEntry df street).day_totals
          = days_order.map (fun day => (day, (0 : Int)))) := by
  have hmem : ∀ a : DailyRow,
      a ∈ (((TrendExtractor.get_street_variants street).map
          (fun v => TrendExtractor.variantRows df v)).flatten)
        ↔ a ∈ df.filter (fun r =>
            (TrendExtractor.get_street_variants street).any
              (fun v => TrendExtractor.rowMatchesVariant r v)) := by
    intro a
    simp only [List.mem_flatten, List.mem_map, List.mem_filter,
      TrendExtractor.variantRows, List.any_eq_true]
    constructor
    · rintro ⟨l, ⟨v, hv, rfl⟩, hal⟩
      rcases List.mem_filter.mp hal with ⟨haf, hmatch⟩
      exact ⟨haf, v, hv, hmatch⟩
    · rintro ⟨haf, v, hv, hmatch⟩
      exact ⟨_, ⟨v, hv, rfl⟩, List.mem_filter.mpr ⟨haf, hmatch⟩⟩
  have hperm : (TrendExtractor.combined_data df street).Perm
      (TrendExtractor.claimMatchedRows df street) := dedupFirst_perm hmem
  refine ⟨?_, rfl, ?_⟩
  · show TrendExtractor.day_totals df street = _
    unfold TrendExtractor.day_totals
    refine List.map_congr_left (fun day _ => ?_)
    by_cases hc : (TrendExtractor.combined_data df street).isEmpty
    · have hnil : TrendExtractor.combined_data df street = [] := by simpa using hc
      have hclaim : TrendExtractor.claimMatchedRows df street = [] :=
        List.Perm.eq_nil (hnil ▸ hperm).symm
      simp [hc, hclaim, cyclistsSum]
    · have hsum : cyclistsSum ((TrendExtractor.combined_data df street).filter
            (fun r => dayName r.date == day))
          = cyclistsSum ((TrendExtractor.claimMatchedRows df street).filter
            (fun r => dayName r.date == day)) :=
        List.Perm.sum_eq (List.Perm.map _ (List.Perm.filter _ hperm))
      simp [hc, hsum]
  · intro h
    have hnil : TrendExtractor.combined_data df street = [] :=
      List.Perm.eq_nil (h ▸ hperm)
    show TrendExtractor.day_totals df street = _
    unfold TrendExtractor.day_totals
    exact List.map_congr_left (fun day _ => by simp [hnil])

/-- Claim C3: for every list of matched daily rows, the total obtained by
grouping by date and summing daily_cyclists per date equals the sum of the
seven weekly-pattern values, each of which sums daily_cyclists over the
ungrouped rows of one weekday. -/
theorem trend_metadata_total_matches_weekly_pattern (rows : List DailyRow) :
    TrendMetadata.total_cyclists_stat rows
      = ((TrendMetadata.weekly_pattern rows).map Prod.snd).sum := by
  have hleft : TrendMetadata.total_cyclists_stat rows
      = (rows.map (fun r => r.daily_cyclists)).sum := by
    unfold TrendMetadata.total_cyclists_stat
    have h := sum_fiber_partition (dedupFirst (rows.map (fun r => r.date)))
      (fun r => r.date) (fun r => r.daily_cyclists) rows (nodup_dedupFirst _)
      (fun a ha => (mem_dedupFirst _ _).mpr (List.mem_map_of_mem _ ha))
    simpa [cyclistsSum] using h
  have hright : ((TrendMetadata.weekly_pattern rows).map Prod.snd).sum
      = (rows.map (fun r => r.daily_cyclists)).sum := by
    unfold TrendMetadata.weekly_pattern
    rw [List.map_map]
    have h := sum_fiber_partition days_order (fun r => dayName r.date)
      (fun r => r.daily_cyclists) rows (by decide)
      (fun a _ => dayName_mem_days_order a.date)
    simpa [cyclistsSum, Function.comp] using h
  rw [hleft, hright]

/-- Claim C8 (amended): `get_street_variants` gives no variant for a
non-string cell; splits only on slashes when a slash is present; splits on
ampersands when an ampersand but no slash is present; on any other string
gives the stripped name when that is non-empty and nothing when the string
is whitespace-only; and never returns an empty string. -/
theorem get_street_variants_spec (s : String) (o : Option String) :
    TrendExtractor.get_street_variants none = []
    ∧ "" ∉ TrendExtractor.get_street_variants o
    ∧ (pyIn "/" s = true →
        TrendExtractor.get_street_variants (some s)
          = ((pySplit s "/").map pyStrip).filter (fun v => v != ""))
    ∧ (pyIn "/" s = false → pyIn "&" s = true →
        TrendExtractor.get_street_variants (some s)
          = ((pySplit s "&").map pyStrip).filter (fun v => v != ""))
    ∧ (pyIn "/" s = false → pyIn "&" s = false →
        TrendExtractor.get_street_variants (some s)
          = if pyStrip s = "" then [] else [pyStrip s]) := by
  refine ⟨rfl, ?_, ?_, ?_, ?_⟩
  · cases o with
    | none => simp [TrendExtractor.get_street_variants]
    | some t =>
      intro hmem
      simp only [TrendExtractor.get_street_variants, List.mem_filter] at hmem
      simp at hmem
  · intro h
    simp [TrendExtractor.get_street_variants, h]
  · intro h1 h2
    simp [TrendExtractor.get_street_variants, h1, h2]
  · intro h1 h2
    by_cases hs : pyStrip s = "" <;>
      simp [TrendExtractor.get_street_variants, h1, h2, hs, List.filter_cons]

/-- Claim C8, counterexample: on the whitespace-only street name the claimed
singleton of the stripped name is not what `get_street_variants` returns
(the stripped name is empty and is filtered out). -/
theorem get_street_variants_cex :
    (TrendExtractor.get_street_variants (some " ") = [pyStrip " "]) = False :=
  eq_false (by decide)

/-- Claim C6: the exported GeoDataFrame carries exactly the columns
street_name, original_clean_name, geometry (also when it is empty), and its
rows are exactly one feature per input street whose cleaned name produced at
least one trimmed part, holding the original name, the cleaned name, and the
unary union of the trimmed parts. -/
theorem extractor_output_spec {G : Type} (ops : GeomOps G)
    (gdf_edges : List (StreetExtractor.OsmEdge G))
    (gdf_points : List (StreetExtractor.CyclistPoint G)) (street_names : List String) :
    (StreetExtractor.extractor_output ops gdf_edges gdf_points street_names).columns
        = ["street_name", "original_clean_name", "geometry"]
    ∧ (StreetExtractor.extractor_output ops gdf_edges gdf_points street_names).rows
        = (street_names.filter (fun s =>
            !(StreetExtractor.street_trimmed_parts ops gdf_edges gdf_points
              (pyStrip (pyLower s))).isEmpty)).map
            (fun s => ⟨s, pyStrip (pyLower s),
              ops.unaryUnion (StreetExtractor.street_trimmed_parts ops gdf_edges gdf_points
                (pyStrip (pyLower s)))⟩) := by
  have hrows : StreetExtractor.final_segments ops gdf_edges gdf_points street_names
      = (street_names.filter (fun s =>
          !(StreetExtractor.street_trimmed_parts ops gdf_edges gdf_points
            (pyStrip (pyLower s))).isEmpty)).map
          (fun s => ⟨s, pyStrip (pyLower s),
            ops.unaryUnion (StreetExtractor.street_trimmed_parts ops gdf_edges gdf_points
              (pyStrip (pyLower s)))⟩) := by
    induction street_names with
    | nil => rfl
    | cons a t ih =>
      by_cases h : (StreetExtractor.street_trimmed_parts ops gdf_edges gdf_points
          (pyStrip (pyLower a))).isEmpty <;>
        simpa [StreetExtractor.final_segments, List.filterMap_cons, List.filter_cons, h]
          using ih
  constructor
  · unfold StreetExtractor.extractor_output
    by_cases h : (StreetExtractor.final_segments ops gdf_edges gdf_points street_names).isEmpty <;>
      simp [h]
  · unfold StreetExtractor.extractor_output
    by_cases h : (StreetExtractor.final_segments ops gdf_edges gdf_points street_names).isEmpty
    · have hnil : StreetExtractor.final_segments ops gdf_edges gdf_points street_names = [] := by
        simpa using h
      simp only [if_pos h]
      rw [← hrows, hnil]
    · simp only [if_neg h]
      exact hrows

/-- Claim C7 (amended): Total Streets counts the distinct street names,
Increased Risk the rows with trend Increase, Improved Safety the rows with
trend Decrease; Improvement Rate is the truncation of the IEEE-754 binary64
evaluation of improved divided by total times 100 when the total is
positive (one below the exact truncation on inputs such as 29 of 50) and 0
otherwise; on an empty frame all four metrics are 0. -/
theorem create_abnormal_metrics_spec (df : List Tab2.AbnormalRow) :
    (Tab2.create_abnormal_metrics df).total_abnormal
        = (df.map (fun r => r.street_name)).toFinset.card
    ∧ (Tab2.create_abnormal_metrics df).high_risk_routes
        = df.countP (fun r => r.trend == some "Increase")
    ∧ (Tab2.create_abnormal_metrics df).improved_routes
        = df.countP (fun r => r.trend == some "Decrease")
    ∧ (Tab2.create_abnormal_metrics df).improvement_rate
        = (if 0 < (Tab2.create_abnormal_metrics df).total_abnormal then
            Float64.truncFloat (Float64.mulFloat100 (Float64.pyDivFloat
              (Tab2.create_abnormal_metrics df).improved_routes
              (Tab2.create_abnormal_metrics df).total_abnormal))
          else 0)
    ∧ (df = [] → Tab2.create_abnormal_metrics df = ⟨0, 0, 0, 0⟩) := by
  refine ⟨?_, ?_, ?_, rfl, ?_⟩
  · cases df with
    | nil => simp [Tab2.create_abnormal_metrics]
    | cons a t => simp [Tab2.create_abnormal_metrics, length_dedupFirst_eq_card]
  · cases df with
    | nil => simp [Tab2.create_abnormal_metrics]
    | cons a t => simp [Tab2.create_abnormal_metrics, List.countP_eq_length_filter]
  · cases df with
    | nil => simp [Tab2.create_abnormal_metrics]
    | cons a t => simp [Tab2.create_abnormal_metrics, List.countP_eq_length_filter]
  · intro h
    subst h
    rfl

/-- Claim C7, counterexample: on 50 distinct streets of which 29 improved,
the rendered Improvement Rate is 57, while the integer truncation of
improved divided by total times 100 is 58 (the float product
0.58 * 100 falls just below 58). -/
theorem create_abnormal_metrics_cex :
    (Tab2.create_abnormal_metrics Tab2.rateCexDf).improvement_rate = 57
    ∧ (100 * (Tab2.create_abnormal_metrics Tab2.rateCexDf).improved_routes)
        / (Tab2.create_abnormal_metrics Tab2.rateCexDf).total_abnormal = 58 := by
  decide

/-- Claim C9: the route colour is Gray on a missing Popularity Change value;
Green whenever the lowercased text mentions increasing or improved, even
when a decline keyword is also present; otherwise Red when it mentions
decreasing, dropped or decline; and Gray in all remaining cases. -/
theorem get_color_spec (o : Option String) :
    (Tab3.get_color o = "Green" ↔ ∃ s, o = some s ∧
        (pyIn "increasing" (pyLower s) = true ∨ pyIn "improved" (pyLower s) = true))
    ∧ (Tab3.get_color o = "Red" ↔ ∃ s, o = some s ∧
        pyIn "increasing" (pyLower s) = false ∧ pyIn "improved" (pyLower s) = false ∧
        (pyIn "decreasing" (pyLower s) = true ∨ pyIn "dropped" (pyLower s) = true
          ∨ pyIn "decline" (pyLower s) = true))
    ∧ (Tab3.get_color o = "Gray" ↔ o = none ∨ ∃ s, o = some s ∧
        pyIn "increasing" (pyLower s) = false ∧ pyIn "improved" (pyLower s) = false ∧
        pyIn "decreasing" (pyLower s) = false ∧ pyIn "dropped" (pyLower s) = false ∧
        pyIn "decline" (pyLower s) = false) := by
  cases o with
  | none => refine ⟨?_, ?_, ?_⟩ <;> simp [Tab3.get_color]
  | some s =>
    by_cases h1 : pyIn "increasing" (pyLower s) = true <;>
    by_cases h2 : pyIn "improved" (pyLower s) = true <;>
    by_cases h3 : pyIn "decreasing" (pyLower s) = true <;>
    by_cases h4 : pyIn "dropped" (pyLower s) = true <;>
    by_cases h5 : pyIn "decline" (pyLower s) = true <;>
      simp [Tab3.get_color, h1, h2, h3, h4, h5]

/-- Claim C10 (amended): `calculate_bounds_from_geometries` is total, returns
the default Dublin bounds whenever no Polygon geometry contributes a ring
vertex (geometries of any other type are ignored), and otherwise returns the
four extremes over all ring vertices of all Polygon geometries — a value
that can coincide with the default bounds. -/
theorem calculate_bounds_from_geometries_spec (geometries : List Tab2.GeoJsonGeometry) :
    (Tab2.polygon_vertices geometries = [] →
      Tab2.calculate_bounds_from_geometries geometries = Tab2.default_dublin_bounds)
    ∧ (∀ v vs, Tab2.polygon_vertices geometries = v :: vs →
        ∃ a b c d : ℚ,
          Tab2.calculate_bounds_from_geometries geometries = [a, b, c, d]
          ∧ (∀ p ∈ Tab2.polygon_vertices geometries, a ≤ p.1 ∧ b ≤ p.2 ∧ p.1 ≤ c ∧ p.2 ≤ d)
          ∧ a ∈ (Tab2.polygon_vertices geometries).map Prod.fst
          ∧ b ∈ (Tab2.polygon_vertices geometries).map Prod.snd
          ∧ c ∈ (Tab2.polygon_vertices geometries).map Prod.fst
          ∧ d ∈ (Tab2.polygon_vertices geometries).map Prod.snd) := by
  constructor
  · intro h
    simp [Tab2.calculate_bounds_from_geometries, h]
  · intro v vs h
    refine ⟨(vs.map Prod.fst).foldl min v.1, (vs.map Prod.snd).foldl min v.2,
      (vs.map Prod.fst).foldl max v.1, (vs.map Prod.snd).foldl max v.2, ?_, ?_, ?_, ?_, ?_, ?_⟩
    · simp only [Tab2.calculate_bounds_from_geometries, h]
      rw [List.foldl_map, List.foldl_map, List.foldl_map, List.foldl_map]
    · intro p hp
      rw [h] at hp
      rcases List.mem_cons.mp hp with rfl | hpv
      · exact ⟨foldl_min_le_init _ _, foldl_min_le_init _ _,
          foldl_max_ge_init _ _, foldl_max_ge_init _ _⟩
      · exact ⟨foldl_min_le_mem _ _ _ (List.mem_map_of_mem _ hpv),
          foldl_min_le_mem _ _ _ (List.mem_map_of_mem _ hpv),
          foldl_max_ge_mem _ _ _ (List.mem_map_of_mem _ hpv),
          foldl_max_ge_mem _ _ _ (List.mem_map_of_mem _ hpv)⟩
    · rw [h, List.map_cons]
      rcases foldl_min_mem (vs.map Prod.fst) v.1 with he | he
      · rw [he]; exact List.mem_cons_self _ _
      · exact List.mem_cons_of_mem _ he
    · rw [h, List.map_cons]
      rcases foldl_min_mem (vs.map Prod.snd) v.2 with he | he
      · rw [he]; exact List.mem_cons_self _ _
      · exact List.mem_cons_of_mem _ he
    · rw [h, List.map_cons]
      rcases foldl_max_mem (vs.map Prod.fst) v.1 with he | he
      · rw [he]; exact List.mem_cons_self _ _
      · exact List.mem_cons_of_mem _ he
    · rw [h, List.map_cons]
      rcases foldl_max_mem (vs.map Prod.snd) v.2 with he | he
      · rw [he]; exact List.mem_cons_self _ _
      · exact List.mem_cons_of_mem _ he

/-- Claim C10, counterexample: a Polygon whose vertex extremes are exactly
the default Dublin bounds makes the function return the default bounds even
though the list does contain a Polygon with ring vertices, so the default is
not returned exactly when no such geometry exists. -/
theorem calculate_bounds_from_geometries_cex :
    Tab2.calculate_bounds_from_geometries Tab2.boundsCexGeometries
        = Tab2.default_dublin_bounds
    ∧ Tab2.polygon_vertices Tab2.boundsCexGeometries ≠ [] := by
  have hv : Tab2.polygon_vertices Tab2.boundsCexGeometries
      = [(-(63/10), 532/10), (-(61/10), 534/10)] := by
    simp [Tab2.polygon_vertices, Tab2.boundsCexGeometries]
  constructor
  · simp only [Tab2.calculate_bounds_from_geometries, hv, Tab2.default_dublin_bounds]
    norm_num [min_def, max_def]
  · simp [hv]

theorem load_abnormal_events_data_cases {Raw DF : Type} (emptyDF : DF)
    (locate : Except String (Dashboard.FallibleFile Raw))
    (clean : Raw → Except String DF) :
    (∃ raw df, locate = Except.ok ⟨true, Except.ok raw⟩ ∧ clean raw = Except.ok df
      ∧ Dashboard.load_abnormal_events_data emptyDF locate clean = ⟨df, []⟩)
    ∨ ((Dashboard.load_abnormal_events_data emptyDF locate clean).value = emptyDF
      ∧ (Dashboard.load_abnormal_events_data emptyDF locate clean).messages ≠ []) := by
  cases locate with
  | error e => right; simp [Dashboard.load_abnormal_events_data]
  | ok file =>
    obtain ⟨found, read⟩ := file
    cases found with
    | false => right; simp [Dashboard.load_abnormal_events_data]
    | true =>
      cases read with
      | error e => right; simp [Dashboard.load_abnormal_events_data]
      | ok raw =>
        cases hc : clean raw with
        | error e =>
          right
          simp [Dashboard.load_abnormal_events_data, hc]
        | ok df =>
          left
          exact ⟨raw, df, rfl, hc, by simp [Dashboard.load_abnormal_events_data, hc]⟩

theorem load_abnormal_events_segments_cases {Raw DF : Type}
    (locate : Except String (Dashboard.FallibleFile Raw))
    (extract : Raw → Except String DF) :
    (∃ raw df, locate = Except.ok ⟨true, Except.ok raw⟩ ∧ extract raw = Except.ok df
      ∧ Dashboard.load_abnormal_events_segments locate extract = ⟨some df, []⟩)
    ∨ ((Dashboard.load_abnormal_events_segments locate extract).value = none
      ∧ (Dashboard.load_abnormal_events_segments locate extract).messages ≠ []) := by
  cases locate with
  | error e => right; simp [Dashboard.load_abnormal_events_segments]
  | ok file =>
    obtain ⟨found, read⟩ := file
    cases found with
    | false => right; simp [Dashboard.load_abnormal_events_segments]
    | true =>
      cases read with
      | error e => right; simp [Dashboard.load_abnormal_events_segments]
      | ok raw =>
        cases hc : extract raw with
        | error e =>
          right
          simp [Dashboard.load_abnormal_events_segments, hc]
        | ok df =>
          left
          exact ⟨raw, df, rfl, hc, by simp [Dashboard.load_abnormal_events_segments, hc]⟩

theorem load_route_popularity_data_cases {Raw DF : Type} (emptyDF : DF)
    (locate : Except String (Dashboard.FallibleFile Raw))
    (process : Raw → Except String DF) :
    (∃ raw df, locate = Except.ok ⟨true, Except.ok raw⟩ ∧ process raw = Except.ok df
      ∧ Dashboard.load_route_popularity_data emptyDF locate process = ⟨df, []⟩)
    ∨ ((Dashboard.load_route_popularity_data emptyDF locate process).value = emptyDF
      ∧ (Dashboard.load_route_popularity_data emptyDF locate process).messages ≠ []) := by
  cases locate with
  | error e => right; simp [Dashboard.load_route_popularity_data]
  | ok file =>
    obtain ⟨found, read⟩ := file
    cases found with
    | false => right; simp [Dashboard.load_route_popularity_data]
    | true =>
      cases read with
      | error e => right; simp [Dashboard.load_route_popularity_data]
      | ok raw =>
        cases hc : process raw with
        | error e =>
          right
          simp [Dashboard.load_route_popularity_data, hc]
        | ok df =>
          left
          exact ⟨raw, df, rfl, hc, by simp [Dashboard.load_route_popularity_data, hc]⟩

theorem load_json_file_cases {α : Type} (sentinel : α) (missingMsg errPrefix : String)
    (locate : Except String (Dashboard.FallibleFile α)) :
    (∃ v, locate = Except.ok ⟨true, Except.ok v⟩
      ∧ Dashboard.load_json_file sentinel missingMsg errPrefix locate = ⟨v, []⟩)
    ∨ ((Dashboard.load_json_file sentinel missingMsg errPrefix locate).value = sentinel
      ∧ (Dashboard.load_json_file sentinel missingMsg errPrefix locate).messages ≠ []) := by
  cases locate with
  | error e => right; simp [Dashboard.load_json_file]
  | ok file =>
    obtain ⟨found, read⟩ := file
    cases found with
    | false => right; simp [Dashboard.load_json_file]
    | true =>
      cases read with
      | error e => right; simp [Dashboard.load_json_file]
      | ok v => left; exact ⟨v, rfl, rfl⟩

/-- Claim C4: every dashboard data-loading function catches each exception
raised while locating, reading, or parsing its input inside the function:
unless the fully successful path is taken (file located, found, read and
processed), the loader emits at least one Streamlit error or warning message
and returns its empty sentinel (empty frame, empty list or dict, or None).
Each loader is a total Lean function of its fallible environment, which is
the statement that no loading exception propagates to the caller. -/
theorem dashboard_loaders_catch_loading_errors
    {RawA DFA RawB DFB RawC DFC T U W : Type}
    (emptyA : DFA) (locA : Except String (Dashboard.FallibleFile RawA))
    (cleanA : RawA → Except String DFA)
    (locB : Except String (Dashboard.FallibleFile RawB))
    (extractB : RawB → Except String DFB)
    (emptyC : DFC) (locC : Except String (Dashboard.FallibleFile RawC))
    (processC : RawC → Except String DFC)
    (locT : Except String (Dashboard.FallibleFile (List T)))
    (locU : Except String (Dashboard.FallibleFile (List (String × U))))
    (locW : Except String (Dashboard.FallibleFile (List (String × W)))) :
    ((∃ raw df, locA = Except.ok ⟨true, Except.ok raw⟩ ∧ cleanA raw = Except.ok df
        ∧ Dashboard.load_abnormal_events_data emptyA locA cleanA = ⟨df, []⟩)
      ∨ ((Dashboard.load_abnormal_events_data emptyA locA cleanA).value = emptyA
        ∧ (Dashboard.load_abnormal_events_data emptyA locA cleanA).messages ≠ []))
    ∧ ((∃ raw df, locB = Except.ok ⟨true, Except.ok raw⟩ ∧ extractB raw = Except.ok df
        ∧ Dashboard.load_abnormal_events_segments locB extractB = ⟨some df, []⟩)
      ∨ ((Dashboard.load_abnormal_events_segments locB extractB).value = none
        ∧ (Dashboard.load_abnormal_events_segments locB extractB).messages ≠ []))
    ∧ ((∃ raw df, locC = Except.ok ⟨true, Except.ok raw⟩ ∧ processC raw = Except.ok df
        ∧ Dashboard.load_route_popularity_data emptyC locC processC = ⟨df, []⟩)
      ∨ ((Dashboard.load_route_popularity_data emptyC locC processC).value = emptyC
        ∧ (Dashboard.load_route_popularity_data emptyC locC processC).messages ≠ []))
    ∧ ((∃ v, locT = Except.ok ⟨true, Except.ok v⟩
        ∧ Dashboard.load_time_of_day_data locT = ⟨v, []⟩)
      ∨ ((Dashboard.load_time_of_day_data locT).value = []
        ∧ (Dashboard.load_time_of_day_data locT).messages ≠ []))
    ∧ ((∃ v, locU = Except.ok ⟨true, Except.ok v⟩
        ∧ Dashboard.load_day_of_week_data locU = ⟨v, []⟩)
      ∨ ((Dashboard.load_day_of_week_data locU).value = []
        ∧ (Dashboard.load_day_of_week_data locU).messages ≠ []))
    ∧ ((∃ v, locW = Except.ok ⟨true, Except.ok v⟩
        ∧ Dashboard.load_street_trends_metadata locW = ⟨v, []⟩)
      ∨ ((Dashboard.load_street_trends_metadata locW).value = []
        ∧ (Dashboard.load_street_trends_metadata locW).messages ≠ [])) :=
  ⟨load_abnormal_events_data_cases emptyA locA cleanA,
    load_abnormal_events_segments_cases locB extractB,
    load_route_popularity_data_cases emptyC locC processC,
    load_json_file_cases [] _ _ locT,
    load_json_file_cases [] _ _ locU,
    load_json_file_cases [] _ _ locW⟩
